import Mathlib

/-
Verification of `check_dependencies.py`, the computex computer-use
dependency checker.  The script probes the host environment (platform,
DISPLAY variable, presence of the `xdotool` and `import` executables),
optionally auto-installs missing packages, and exits 0 / 1 / 2.

The embedding below models one host snapshot as `Env`; every probe of
the script becomes a pure function of the snapshot.  The driver `main`
consumes a list of snapshots so that the script's recursive re-invocation
after a successful install (which sees a possibly changed host) is a
structural recursion on the list.
-/

namespace ComputexCheck

/-- Outcome of one `subprocess.run([command, flag], ...)` invocation made by
the version probe: the process completed with a return code and captured
stdout, it timed out (`subprocess.TimeoutExpired`), the executable was
missing (`FileNotFoundError`), or some other exception was raised. -/
inductive RunOutcome where
  | completed (returncode : Int) (stdout : String)
  | timedOut
  | fileNotFound
  | otherError
  deriving Repr, DecidableEq

/-- One snapshot of the host environment as the script observes it:
`system` is `platform.system()`; `display` is the `DISPLAY` environment
variable (`none` when unset); `which` is `shutil.which`; `installExit` is
the return code of running the chosen install command through the shell
(`none` when `subprocess.run` itself raises); `run` gives the outcome of the
version-probe subprocess for a command/flag pair. -/
structure Env where
  system : String
  display : Option String
  which : String → Option String
  installExit : Option Int
  run : String → String → RunOutcome

/-- The record handed to `print_check`: a check's displayed name, whether it
passed, and the detail/remediation message. -/
structure CheckResult where
  name : String
  passed : Bool
  message : String
  deriving Repr, DecidableEq

/-- `check_platform`: passes iff `platform.system() == "Linux"`; the message
shown depends on verbosity. -/
def check_platform (env : Env) (verbose : Bool) : CheckResult :=
  let system := env.system
  let is_linux := system == "Linux"
  if verbose then
    { name := "Platform", passed := is_linux,
      message := "Running on " ++ system ++ " (Linux required)" }
  else
    { name := "Platform", passed := is_linux,
      message := "Not Linux - computer-use requires Linux/X11" }

/-- `check_display`: `os.environ.get("DISPLAY", "")` is truthy, i.e. the
variable is set to a non-empty string. -/
def check_display (env : Env) (verbose : Bool) : CheckResult :=
  let display := env.display.getD ""
  let has_display := display != ""
  let msg :=
    if !has_display then
      "Set DISPLAY (e.g., export DISPLAY=:0) or use 'computex --headless'"
    else if verbose then
      "DISPLAY=" ++ display
    else ""
  { name := "DISPLAY variable", passed := has_display, message := msg }

/-- `check_command`: `shutil.which(command)` resolves; returns the printed
check result together with the resolved path, mirroring the Python pair
`(available, path)` (`passed` is `available`). -/
def check_command (env : Env) (command : String) (verbose : Bool) :
    CheckResult × Option String :=
  let path := env.which command
  let available := path.isSome
  let msg :=
    if !available then
      if command == "xdotool" then "Install: sudo apt-get install -y xdotool"
      else if command == "import" then "Install: sudo apt-get install -y imagemagick"
      else "Command '" ++ command ++ "' not found in PATH"
    else if verbose then
      "Found at " ++ path.getD ""
    else ""
  ({ name := command, passed := available, message := msg }, path)

/-- Python `str.strip()`: drop whitespace characters from both ends of the
string (whitespace per `Char.isWhitespace`). -/
def pyStrip (s : String) : String :=
  ⟨((s.data.dropWhile Char.isWhitespace).reverse.dropWhile Char.isWhitespace).reverse⟩

/-- `stdout.strip().split("\n")[0]`: the first line of the stripped output,
i.e. everything before the first newline. -/
def firstLine (s : String) : String :=
  ⟨s.data.takeWhile (fun c => c != '\n')⟩

/-- The version flags tried by `check_command_version`, in source order. -/
def versionFlags : List String := ["--version", "-version", "version", "-V"]

/-- The loop body of `check_command_version`: walk the flag list; a
completed run with return code 0 and non-empty stripped stdout prints the
first line of that stdout and stops; `TimeoutExpired` and
`FileNotFoundError` are caught by the inner `except` and skip to the next
flag; any other exception escapes the inner `try`, is swallowed by the
outer `except Exception: pass`, and ends the whole probe. -/
def tryVersionFlags (env : Env) (command : String) : List String → Option String
  | [] => none
  | flag :: rest =>
    match env.run command flag with
    | RunOutcome.completed rc out =>
        if rc == 0 && pyStrip out != "" then
          some (firstLine (pyStrip out))
        else tryVersionFlags env command rest
    | RunOutcome.timedOut => tryVersionFlags env command rest
    | RunOutcome.fileNotFound => tryVersionFlags env command rest
    | RunOutcome.otherError => none

/-- `check_command_version`: returns the version line it prints, or `none`
when nothing is printed.  The guard `if not path or not verbose: return`
makes it a no-op without a truthy path or verbose mode. -/
def check_command_version (env : Env) (command : String)
    (path : Option String) (verbose : Bool) : Option String :=
  if path.getD "" == "" || !verbose then none
  else tryVersionFlags env command versionFlags

/-- `get_install_command`: first package manager found among
apt-get, dnf, pacman, yum picks the install command line. -/
def get_install_command (env : Env) : Option String :=
  if (env.which "apt-get").isSome then
    some "sudo apt-get update && sudo apt-get install -y xdotool imagemagick"
  else if (env.which "dnf").isSome then
    some "sudo dnf install -y xdotool ImageMagick"
  else if (env.which "pacman").isSome then
    some "sudo pacman -S xdotool imagemagick"
  else if (env.which "yum").isSome then
    some "sudo yum install -y xdotool ImageMagick"
  else none

/-- `auto_install`: the first component records whether an install shell
command was actually executed (`subprocess.run(install_cmd, shell=True, ...)`
is reached), the second the function's return value — `True` exactly when
the command was run and exited with return code 0 (an exception while
running it is caught and yields `False`). -/
def auto_install (env : Env) : Bool × Bool :=
  match get_install_command env with
  | none => (false, false)
  | some _ => (true, env.installExit == some 0)

/-- What one invocation tree of `main` does: its return value (`none` when
the modelled recursion ran past the supplied snapshots), the check results
passed to `print_check` in order, how many times the check sequence ran,
whether the manual-installation instruction block was printed, and whether
an install shell command was executed. -/
structure MainResult where
  code : Option Nat
  reported : List CheckResult
  runs : Nat
  manual : Bool
  installExec : Bool
  deriving Repr, DecidableEq

/-- `main`, driven by a list of host snapshots: the head is the environment
of the current invocation; the tail serves the recursive re-invocation in
`return main() if "--install" not in sys.argv else 1` (the host may have
changed after an install).  `installFlag` is `args.install` (argparse also
sets it for an unambiguous abbreviation such as `--inst`);
`argvHasInstall` is the literal membership test on `sys.argv`. -/
def main : List Env → Bool → Bool → Bool → MainResult
  | [], _, _, _ =>
    { code := none, reported := [], runs := 0, manual := false, installExec := false }
  | env :: rest, verbose, installFlag, argvHasInstall =>
    let pc := check_platform env verbose
    if pc.passed then
      let dc := check_display env verbose
      let xc := check_command env "xdotool" verbose
      let ic := check_command env "import" verbose
      let reported := [pc, dc, xc.1, ic.1]
      if dc.passed && xc.1.passed && ic.1.passed then
        { code := some 0, reported := reported, runs := 1,
          manual := false, installExec := false }
      else if installFlag then
        let ai := auto_install env
        if ai.2 then
          if argvHasInstall then
            { code := some 1, reported := reported, runs := 1,
              manual := false, installExec := ai.1 }
          else
            let r := main rest verbose installFlag argvHasInstall
            { code := r.code, reported := reported ++ r.reported,
              runs := 1 + r.runs, manual := r.manual,
              installExec := ai.1 || r.installExec }
        else
          { code := some 1, reported := reported, runs := 1,
            manual := true, installExec := ai.1 }
      else
        { code := some 1, reported := reported, runs := 1,
          manual := true, installExec := false }
    else
      { code := some 2, reported := [pc], runs := 1,
        manual := false, installExec := false }

/-- `startsWithChars pat s`: `pat` is a prefix of `s`, character by
character. -/
def startsWithChars : List Char → List Char → Bool
  | [], _ => true
  | _ :: _, [] => false
  | p :: ps, c :: cs => p == c && startsWithChars ps cs

/-- `hasSubChars pat s`: `pat` occurs contiguously somewhere in `s`. -/
def hasSubChars (pat : List Char) : List Char → Bool
  | [] => pat.isEmpty
  | c :: cs => startsWithChars pat (c :: cs) || hasSubChars pat cs

/-- Substring occurrence on strings, used to state that an install command
line names a package. -/
def occursIn (pat s : String) : Bool := hasSubChars pat.data s.data

/-! Sample host snapshots used to instantiate the theorems. -/

/-- A non-Linux host with nothing installed. -/
def darwinEnv : Env :=
  { system := "Darwin", display := none, which := fun _ => none,
    installExit := none, run := fun _ _ => RunOutcome.fileNotFound }

/-- A fully provisioned Linux host. -/
def goodEnv : Env :=
  { system := "Linux", display := some ":0",
    which := fun c =>
      if c == "xdotool" then some "/usr/bin/xdotool"
      else if c == "import" then some "/usr/bin/import"
      else if c == "apt-get" then some "/usr/bin/apt-get"
      else none,
    installExit := some 0, run := fun _ _ => RunOutcome.fileNotFound }

/-- A Linux host with apt-get available and nothing else installed. -/
def bareAptEnv : Env :=
  { system := "Linux", display := none,
    which := fun c => if c == "apt-get" then some "/usr/bin/apt-get" else none,
    installExit := some 0, run := fun _ _ => RunOutcome.fileNotFound }

/-- A Linux host with no package manager, no display, no tools. -/
def bareEnv : Env :=
  { system := "Linux", display := none, which := fun _ => none,
    installExit := none, run := fun _ _ => RunOutcome.fileNotFound }

/-- A fully provisioned Linux host whose only failing check is DISPLAY. -/
def oneFailEnv : Env := { goodEnv with display := none }

/-- A Linux host with an active display and apt-get available where the only
failing check is the missing xdotool executable. -/
def toolFailEnv : Env :=
  { system := "Linux", display := some ":0",
    which := fun c =>
      if c == "import" then some "/usr/bin/import"
      else if c == "apt-get" then some "/usr/bin/apt-get"
      else none,
    installExit := some 0, run := fun _ _ => RunOutcome.fileNotFound }

/-- The same host after the package install added xdotool: only executable
resolution changed; the platform and the process's environment variables
(in particular DISPLAY) are untouched. -/
def afterInstallEnv : Env :=
  { toolFailEnv with
    which := fun c =>
      if c == "xdotool" then some "/usr/bin/xdotool"
      else toolFailEnv.which c }

/-- A flag attempt that the version-probe loop skips, moving to the next
flag: the process completed with a non-zero return code or empty stripped
stdout, timed out, or the executable was missing. -/
def skipsFlag (env : Env) (command flag : String) : Bool :=
  match env.run command flag with
  | RunOutcome.completed rc out => !(rc == 0 && pyStrip out != "")
  | RunOutcome.timedOut => true
  | RunOutcome.fileNotFound => true
  | RunOutcome.otherError => false

/-- A flag attempt the version probe accepts: the process completed with
return code 0 and non-empty stripped stdout. -/
def succeedsFlag (env : Env) (command flag : String) : Bool :=
  match env.run command flag with
  | RunOutcome.completed rc out => rc == 0 && pyStrip out != ""
  | _ => false

/-- A host where probing xdotool with `--version` raises an exception that
is neither `TimeoutExpired` nor `FileNotFoundError`, while `-version` would
succeed. -/
def oddErrorEnv : Env :=
  { system := "Linux", display := some ":0",
    which := fun c => if c == "xdotool" then some "/usr/bin/xdotool" else none,
    installExit := none,
    run := fun _ flag =>
      if flag == "--version" then RunOutcome.otherError
      else if flag == "-version" then RunOutcome.completed 0 "xdotool version 3.20"
      else RunOutcome.fileNotFound }

/-- A host where probing any tool with `--version` times out and with
`-version` succeeds with a two-line output. -/
def slowToolEnv : Env :=
  { system := "Linux", display := some ":0", which := fun _ => none,
    installExit := none,
    run := fun _ flag =>
      if flag == "--version" then RunOutcome.timedOut
      else if flag == "-version" then RunOutcome.completed 0 " import 7.1.1\nfeatures "
      else RunOutcome.fileNotFound }

/-! Basic facts about the probes, shared by several developments below. -/

theorem check_platform_passed (env : Env) (v : Bool) :
    (check_platform env v).passed = (env.system == "Linux") := by
  cases v <;> rfl

theorem check_platform_name (env : Env) (v : Bool) :
    (check_platform env v).name = "Platform" := by
  cases v <;> rfl

theorem check_display_passed (env : Env) (v : Bool) :
    (check_display env v).passed = (env.display.getD "" != "") := rfl

theorem check_display_name (env : Env) (v : Bool) :
    (check_display env v).name = "DISPLAY variable" := rfl

theorem check_command_passed (env : Env) (c : String) (v : Bool) :
    (check_command env c v).1.passed = (env.which c).isSome := rfl

theorem check_command_name (env : Env) (c : String) (v : Bool) :
    (check_command env c v).1.name = c := rfl

theorem check_command_path (env : Env) (c : String) (v : Bool) :
    (check_command env c v).2 = env.which c := rfl

/-- C1: in every run whose platform check fails (the operating system is not
Linux), the driver returns exit code exactly 2, only the platform check is
reported (neither the display check nor either tool check appears), and the
check sequence runs exactly once. -/
theorem C1_platform_gate (env : Env) (rest : List Env)
    (verbose installFlag argvHasInstall : Bool) (h : env.system ≠ "Linux") :
    (main (env :: rest) verbose installFlag argvHasInstall).code = some 2 ∧
    (main (env :: rest) verbose installFlag argvHasInstall).reported
      = [check_platform env verbose] ∧
    (main (env :: rest) verbose installFlag argvHasInstall).runs = 1 := by
  have hp : (check_platform env verbose).passed = false := by
    rw [check_platform_passed, beq_eq_false_iff_ne]
    exact h
  simp [main, hp]

/-- Witness for C1 at a concrete non-Linux snapshot. -/
theorem C1_platform_gate_at :
    (main [darwinEnv] false false false).code = some 2 ∧
    (main [darwinEnv] false false false).reported
      = [check_platform darwinEnv false] ∧
    (main [darwinEnv] false false false).runs = 1 :=
  C1_platform_gate darwinEnv [] false false false (by decide)

/-- C3: in every run in which the platform, display and both tool checks all
pass, the driver exits with code exactly 0. -/
theorem C3_all_checks_pass_exit_zero (env : Env) (rest : List Env)
    (verbose installFlag argvHasInstall : Bool)
    (hsys : env.system = "Linux") (hd : env.display.getD "" ≠ "")
    (hx : (env.which "xdotool").isSome = true)
    (hi : (env.which "import").isSome = true) :
    (main (env :: rest) verbose installFlag argvHasInstall).code = some 0 := by
  have hp : (check_platform env verbose).passed = true := by
    rw [check_platform_passed, beq_iff_eq]; exact hsys
  have hdp : (check_display env verbose).passed = true := by
    rw [check_display_passed]; exact bne_iff_ne.mpr hd
  have hxp : (check_command env "xdotool" verbose).1.passed = true := by
    rw [check_command_passed]; exact hx
  have hip : (check_command env "import" verbose).1.passed = true := by
    rw [check_command_passed]; exact hi
  simp [main, hp, hdp, hxp, hip]

/-- Witness for C3 at a fully provisioned snapshot. -/
theorem C3_all_checks_pass_exit_zero_at :
    (main [goodEnv] true false false).code = some 0 :=
  C3_all_checks_pass_exit_zero goodEnv [] true false false (by decide) (by decide)
    (by decide) (by decide)

/-- C5: each check records passed exactly when its underlying condition
holds — the platform check iff `platform.system()` is `"Linux"`, the display
check iff `DISPLAY` is set to a non-empty value, and a tool check iff
`shutil.which` resolves the command to a path. -/
theorem C5_checks_record_truth (env : Env) (verbose : Bool) (command : String) :
    ((check_platform env verbose).passed = true ↔ env.system = "Linux") ∧
    ((check_display env verbose).passed = true ↔
      ∃ s, env.display = some s ∧ s ≠ "") ∧
    ((check_command env command verbose).1.passed = true ↔
      ∃ p, env.which command = some p) := by
  refine ⟨?_, ?_, ?_⟩
  · rw [check_platform_passed]
    exact beq_iff_eq
  · rw [check_display_passed]
    cases henv : env.display with
    | none => simp
    | some s => simp [bne_iff_ne]
  · rw [check_command_passed]
    cases henv : env.which command with
    | none => simp
    | some p => simp

/-- C10: `check_command` reports the tool available exactly when the
returned path is present. -/
theorem C10_available_iff_path (env : Env) (command : String) (verbose : Bool) :
    (check_command env command verbose).1.passed = true ↔
    (check_command env command verbose).2 ≠ none := by
  rw [check_command_passed, check_command_path]
  cases env.which command <;> simp

/-- C6: `get_install_command` tests apt-get, dnf, pacman, yum in that fixed
order, returns the first detected manager's install command line — which
names xdotool and the imagemagick package — and returns nothing when none of
the four is found. -/
theorem C6_install_command_priority (env : Env) :
    ((env.which "apt-get").isSome = true →
      get_install_command env
        = some "sudo apt-get update && sudo apt-get install -y xdotool imagemagick") ∧
    (env.which "apt-get" = none → (env.which "dnf").isSome = true →
      get_install_command env = some "sudo dnf install -y xdotool ImageMagick") ∧
    (env.which "apt-get" = none → env.which "dnf" = none →
      (env.which "pacman").isSome = true →
      get_install_command env = some "sudo pacman -S xdotool imagemagick") ∧
    (env.which "apt-get" = none → env.which "dnf" = none →
      env.which "pacman" = none → (env.which "yum").isSome = true →
      get_install_command env = some "sudo yum install -y xdotool ImageMagick") ∧
    (env.which "apt-get" = none → env.which "dnf" = none →
      env.which "pacman" = none → env.which "yum" = none →
      get_install_command env = none) ∧
    (∀ c, get_install_command env = some c →
      occursIn "xdotool" c = true ∧
      (occursIn "imagemagick" c = true ∨ occursIn "ImageMagick" c = true)) := by
  refine ⟨?_, ?_, ?_, ?_, ?_, ?_⟩
  · intro h1
    simp [get_install_command, h1]
  · intro h1 h2
    simp [get_install_command, h1, h2]
  · intro h1 h2 h3
    simp [get_install_command, h1, h2, h3]
  · intro h1 h2 h3 h4
    simp [get_install_command, h1, h2, h3, h4]
  · intro h1 h2 h3 h4
    simp [get_install_command, h1, h2, h3, h4]
  · intro c hc
    unfold get_install_command at hc
    split_ifs at hc <;> simp only [Option.some.injEq] at hc <;> subst hc <;>
      first
        | exact ⟨by decide, Or.inl (by decide)⟩
        | exact ⟨by decide, Or.inr (by decide)⟩

/-- Witness for C6: on an apt-get host the apt command line is returned, and
on a host without any of the four managers nothing is returned. -/
theorem C6_install_command_priority_at :
    get_install_command bareAptEnv
      = some "sudo apt-get update && sudo apt-get install -y xdotool imagemagick" ∧
    get_install_command bareEnv = none :=
  ⟨(C6_install_command_priority bareAptEnv).1 (by decide),
   (C6_install_command_priority bareEnv).2.2.2.2.1 (by decide) (by decide)
     (by decide) (by decide)⟩

/-- C7: with auto-install requested but no known package manager
detectable (and some non-platform check failing on a Linux host),
`get_install_command` returns nothing, `auto_install` executes no shell
command and reports failure, and the driver falls through to the manual
installation instructions and exits 1. -/
theorem C7_no_package_manager (env : Env) (rest : List Env)
    (verbose argvHasInstall : Bool)
    (hapt : env.which "apt-get" = none) (hdnf : env.which "dnf" = none)
    (hpac : env.which "pacman" = none) (hyum : env.which "yum" = none)
    (hsys : env.system = "Linux")
    (hfail : env.display.getD "" = "" ∨ env.which "xdotool" = none ∨
      env.which "import" = none) :
    get_install_command env = none ∧
    auto_install env = (false, false) ∧
    (main (env :: rest) verbose true argvHasInstall).installExec = false ∧
    (main (env :: rest) verbose true argvHasInstall).manual = true ∧
    (main (env :: rest) verbose true argvHasInstall).code = some 1 := by
  have hgic : get_install_command env = none := by
    simp [get_install_command, hapt, hdnf, hpac, hyum]
  have hai : auto_install env = (false, false) := by
    simp [auto_install, hgic]
  have hp : (check_platform env verbose).passed = true := by
    rw [check_platform_passed, beq_iff_eq]; exact hsys
  refine ⟨hgic, hai, ?_, ?_, ?_⟩ <;>
    rcases hfail with h | h | h <;>
      simp [main, hp, hai, check_display_passed, check_command_passed, h]

/-- Witness for C7 on a bare Linux host. -/
theorem C7_no_package_manager_at :
    get_install_command bareEnv = none ∧
    auto_install bareEnv = (false, false) ∧
    (main [bareEnv] false true false).installExec = false ∧
    (main [bareEnv] false true false).manual = true ∧
    (main [bareEnv] false true false).code = some 1 :=
  C7_no_package_manager bareEnv [] false false rfl rfl rfl rfl rfl (Or.inl rfl)

/-- C8: for a fixed sequence of host snapshots, running with and without
the verbose flag yields the same pass/fail outcome for every reported check
and the same exit code; verbosity changes only the messages. -/
theorem C8_verbose_preserves_outcomes (envs : List Env)
    (installFlag argvHasInstall v1 v2 : Bool) :
    (main envs v1 installFlag argvHasInstall).code
      = (main envs v2 installFlag argvHasInstall).code ∧
    (main envs v1 installFlag argvHasInstall).reported.map
        (fun c => (c.name, c.passed))
      = (main envs v2 installFlag argvHasInstall).reported.map
        (fun c => (c.name, c.passed)) := by
  induction envs with
  | nil => exact ⟨rfl, rfl⟩
  | cons env rest ih =>
    obtain ⟨ihc, ihr⟩ := ih
    by_cases hp : (env.system == "Linux") = true
    · by_cases hd : (env.display.getD "" != "") = true
        <;> by_cases hx : (env.which "xdotool").isSome = true
        <;> by_cases hi : (env.which "import").isSome = true
        <;> by_cases ha : (auto_install env).2 = true
        <;> cases installFlag
        <;> cases argvHasInstall
        <;> simp_all [main, check_platform_passed, check_display_passed,
              check_command_passed, check_platform_name, check_display_name,
              check_command_name]
    · have hp' : (env.system == "Linux") = false := by
        cases h : (env.system == "Linux") with
        | true => exact absurd h hp
        | false => rfl
      simp [main, check_platform_passed, check_platform_name, hp']

/-- C4 counterexample: a run on Linux in which exactly one check fails —
xdotool is missing — while auto-install was requested through an argparse
abbreviation (`args.install` true while the literal `--install` token is
not in `sys.argv`) and the apt install succeeded, adding xdotool.  The
second snapshot differs from the first only in resolving xdotool (platform
and DISPLAY are identical, as nothing mutates `os.environ` in-process), so
the recursive re-run finds every check passing and the driver exits 0,
not 1. -/
theorem C4_counterexample :
    (check_platform toolFailEnv false).passed = true ∧
    (check_display toolFailEnv false).passed = true ∧
    (check_command toolFailEnv "xdotool" false).1.passed = false ∧
    (check_command toolFailEnv "import" false).1.passed = true ∧
    afterInstallEnv.system = toolFailEnv.system ∧
    afterInstallEnv.display = toolFailEnv.display ∧
    afterInstallEnv.which "import" = toolFailEnv.which "import" ∧
    afterInstallEnv.which "apt-get" = toolFailEnv.which "apt-get" ∧
    afterInstallEnv.which "xdotool" = some "/usr/bin/xdotool" ∧
    (auto_install toolFailEnv).2 = true ∧
    (main [toolFailEnv, afterInstallEnv] false true false).code = some 0 := by
  decide

/-- C4 (amended): when the platform check passes and exactly one of the
display, xdotool and import checks fails, the driver exits with code
exactly 1 — except on the path where auto-install was requested while the
literal `--install` token is absent from `sys.argv` and the installer
succeeded, in which case the driver re-runs and returns the re-run's
code. -/
theorem C4_exactly_one_failure_exit_one (env : Env) (rest : List Env)
    (verbose installFlag argvHasInstall : Bool)
    (hsys : env.system = "Linux")
    (hone : (env.display.getD "" = "" ∧ (env.which "xdotool").isSome = true ∧
        (env.which "import").isSome = true) ∨
      (env.display.getD "" ≠ "" ∧ env.which "xdotool" = none ∧
        (env.which "import").isSome = true) ∨
      (env.display.getD "" ≠ "" ∧ (env.which "xdotool").isSome = true ∧
        env.which "import" = none))
    (hnorerun : installFlag = false ∨ argvHasInstall = true ∨
      (auto_install env).2 = false) :
    (main (env :: rest) verbose installFlag argvHasInstall).code = some 1 := by
  have hp : (check_platform env verbose).passed = true := by
    rw [check_platform_passed, beq_iff_eq]; exact hsys
  have hall : ((check_display env verbose).passed = false) ∨
      ((check_command env "xdotool" verbose).1.passed = false) ∨
      ((check_command env "import" verbose).1.passed = false) := by
    rcases hone with ⟨h1, _, _⟩ | ⟨_, h2, _⟩ | ⟨_, _, h3⟩
    · exact Or.inl (by simp [check_display_passed, h1])
    · exact Or.inr (Or.inl (by simp [check_command_passed, h2]))
    · exact Or.inr (Or.inr (by simp [check_command_passed, h3]))
  rcases hnorerun with hn | hn | hn
  · subst hn
    rcases hall with h | h | h <;> simp [main, hp, h]
  · subst hn
    cases installFlag <;> rcases hall with h | h | h <;>
      cases hai : (auto_install env).2 <;> simp [main, hp, h, hai]
  · cases installFlag <;> rcases hall with h | h | h <;>
      simp [main, hp, h, hn]

/-- Witness for C4 (amended): only DISPLAY fails, auto-install not
requested. -/
theorem C4_exactly_one_failure_exit_one_at :
    (main [oneFailEnv] false false false).code = some 1 :=
  C4_exactly_one_failure_exit_one oneFailEnv [] false false false rfl
    (Or.inl ⟨rfl, by decide, by decide⟩) (Or.inl rfl)

/-- C2 (code bug): auto-install requested with `--install` in `sys.argv`,
a non-platform check failed, and the installer succeeded — the script
prints that it is re-running the checks, but the expression
`return main() if "--install" not in sys.argv else 1` returns 1 without
re-running: the check sequence runs once, the second snapshot (on which
every check would pass) is never consulted, and the exit code is 1 rather
than the re-run's 0. -/
theorem C2_no_rerun_after_successful_install :
    (auto_install bareAptEnv).1 = true ∧
    (auto_install bareAptEnv).2 = true ∧
    (main [bareAptEnv, goodEnv] false true true).runs = 1 ∧
    (main [bareAptEnv, goodEnv] false true true).code = some 1 ∧
    (main [goodEnv] false true true).code = some 0 := by
  decide

theorem tryVersionFlags_cons_skip (env : Env) (command flag : String)
    (rest : List String) (h : skipsFlag env command flag = true) :
    tryVersionFlags env command (flag :: rest)
      = tryVersionFlags env command rest := by
  cases hr : env.run command flag with
  | completed rc out =>
    cases hb : (rc == 0 && pyStrip out != "") with
    | false => simp [tryVersionFlags, hr, hb]
    | true => simp [skipsFlag, hr, hb] at h
  | timedOut => simp [tryVersionFlags, hr]
  | fileNotFound => simp [tryVersionFlags, hr]
  | otherError => simp [skipsFlag, hr] at h

/-- C9 counterexample: the first flag raises an exception that is neither
`TimeoutExpired` nor `FileNotFoundError`; the claim says every such failure
is silently skipped like the others, but the outer `except Exception: pass`
ends the whole probe, so the second flag — which would succeed — is never
tried and no version is printed. -/
theorem C9_counterexample :
    oddErrorEnv.run "xdotool" "--version" = RunOutcome.otherError ∧
    succeedsFlag oddErrorEnv "xdotool" "-version" = true ∧
    check_command_version oddErrorEnv "xdotool" (some "/usr/bin/xdotool") true
      = none := by
  decide

/-- C9 (amended): without a truthy path or verbose mode the probe prints
nothing; otherwise the version flags are tried in order, stopping at the
first invocation that completes with exit status 0 and a non-empty stripped
stdout, whose first line is printed; a timeout, a missing executable, and a
completion with non-zero status or empty output are silently skipped in
favour of the next flag; any other exception silently ends the probe
without trying the remaining flags; when no flag is accepted nothing is
printed — in every case the probe returns to its caller without raising. -/
theorem C9_version_probe (env : Env) (command : String) :
    (∀ path verbose, path.getD "" = "" ∨ verbose = false →
      check_command_version env command path verbose = none) ∧
    (∀ p, p ≠ "" → check_command_version env command (some p) true
      = tryVersionFlags env command versionFlags) ∧
    (∀ pre flag rest out, (∀ f ∈ pre, skipsFlag env command f = true) →
      env.run command flag = RunOutcome.completed 0 out → pyStrip out ≠ "" →
      tryVersionFlags env command (pre ++ flag :: rest)
        = some (firstLine (pyStrip out))) ∧
    (∀ pre flag rest, (∀ f ∈ pre, skipsFlag env command f = true) →
      env.run command flag = RunOutcome.otherError →
      tryVersionFlags env command (pre ++ flag :: rest) = none) ∧
    (∀ flags, (∀ f ∈ flags, succeedsFlag env command f = false) →
      tryVersionFlags env command flags = none) := by
  refine ⟨?_, ?_, ?_, ?_, ?_⟩
  · intro path verbose h
    rcases h with h | h
    · simp [check_command_version, h]
    · subst h
      simp [check_command_version]
  · intro p hp
    simp [check_command_version, hp]
  · intro pre flag rest out
    induction pre with
    | nil =>
      intro _ hrun hout
      simp only [List.nil_append]
      simp [tryVersionFlags, hrun]
      exact fun hcon => absurd hcon hout
    | cons f fs ihp =>
      intro hpre hrun hout
      rw [List.cons_append, tryVersionFlags_cons_skip env command f _
        (hpre f (List.mem_cons_self f _))]
      exact ihp (fun g hg => hpre g (List.mem_cons_of_mem f hg)) hrun hout
  · intro pre flag rest
    induction pre with
    | nil =>
      intro _ hrun
      simp [tryVersionFlags, hrun]
    | cons f fs ihp =>
      intro hpre hrun
      rw [List.cons_append, tryVersionFlags_cons_skip env command f _
        (hpre f (List.mem_cons_self f _))]
      exact ihp (fun g hg => hpre g (List.mem_cons_of_mem f hg)) hrun
  · intro flags
    induction flags with
    | nil => intro _; rfl
    | cons f fs ihf =>
      intro hflags
      have hf := hflags f (List.mem_cons_self f fs)
      cases hr : env.run command f with
      | completed rc out =>
        have hf' : (rc == 0 && pyStrip out != "") = false := by
          simpa [succeedsFlag, hr] using hf
        rw [tryVersionFlags_cons_skip env command f fs
          (by simp [skipsFlag, hr, hf'])]
        exact ihf (fun g hg => hflags g (List.mem_cons_of_mem f hg))
      | timedOut =>
        rw [tryVersionFlags_cons_skip env command f fs (by simp [skipsFlag, hr])]
        exact ihf (fun g hg => hflags g (List.mem_cons_of_mem f hg))
      | fileNotFound =>
        rw [tryVersionFlags_cons_skip env command f fs (by simp [skipsFlag, hr])]
        exact ihf (fun g hg => hflags g (List.mem_cons_of_mem f hg))
      | otherError => simp [tryVersionFlags, hr]

/-- Witness for C9 (amended): a timeout on `--version` is skipped, the
`-version` attempt succeeds with a two-line output, and the first stripped
line is printed. -/
theorem C9_version_probe_at :
    tryVersionFlags slowToolEnv "import"
        (["--version"] ++ "-version" :: ["version", "-V"])
      = some (firstLine (pyStrip " import 7.1.1\nfeatures ")) ∧
    firstLine (pyStrip " import 7.1.1\nfeatures ") = "import 7.1.1" :=
  ⟨(C9_version_probe slowToolEnv "import").2.2.1 ["--version"] "-version"
      ["version", "-V"] " import 7.1.1\nfeatures " (by decide) (by decide)
      (by decide),
   by decide⟩

end ComputexCheck
